import Mathlib

set_option autoImplicit false

/-!
A shallow embedding of the multi-agent orchestration core
(`src/state.py`, `src/graph.py`, `src/agents.py`, `src/supervisor.py`,
`src/tools.py`, `src/config.py`, `src/main.py`).

External effects (the LLM reasoning step, the OS subprocess, the file
system, `os.path.abspath`) are passed in as explicit parameters; machine
strings are Lean `String`s and the Python string operations used by the
code (`str.startswith`, `str.upper`, `str.strip`, `str.join`) are
re-implemented structurally over the character list so that concrete
instances evaluate in the kernel.
-/

namespace AgenticAI

/-- Python `s.startswith(pre)`. -/
def startswith (s pre : String) : Bool := pre.data.isPrefixOf s.data

/-- Python `s.upper()`. -/
def pyUpper (s : String) : String := ⟨s.data.map Char.toUpper⟩

/-- Python `s.strip()` (strip whitespace from both ends). -/
def pyStrip (s : String) : String :=
  ⟨((s.data.dropWhile Char.isWhitespace).reverse.dropWhile Char.isWhitespace).reverse⟩

/-- Python `sep.join(xs)`. -/
def pyJoin (sep : String) : List String → String
  | [] => ""
  | [x] => x
  | x :: xs => x ++ sep ++ pyJoin sep xs

/-- Python dict truthiness/assignment model: an association list where
`dict[k] = v` overwrites the first binding of `k` in place, or appends a
fresh binding. Models `new_context["last_routing_reason"] = ...` in
`supervisor.py`. -/
def dictSet (ctx : List (String × String)) (k v : String) : List (String × String) :=
  if ctx.any (fun p => p.1 = k) then
    ctx.map (fun p => if p.1 = k then (k, v) else p)
  else
    ctx ++ [(k, v)]

/-- The outcome recorded for one tool invocation inside a worker turn
(`agents.py` appends either a `{"tool", "args", "result"}` dict or a
`{"tool", "args", "error"}` dict to `tool_results`). -/
inductive Outcome where
  | success (value : String)
  | failure (reason : String)
deriving DecidableEq, Repr

/-- One entry of a turn's `tool_results` list (`agents.py` lines 72-85). -/
structure ToolResult where
  tool : String
  args : String
  outcome : Outcome
deriving DecidableEq, Repr

/-- One entry of `intermediate_results`: the dict
`{"agent": agent_name, "tool_results": tool_results}` (`agents.py` lines 98-102). -/
structure TurnRecord where
  agent : String
  tool_results : List ToolResult
deriving DecidableEq, Repr

/-- A LangChain message: role tag, text content, optional id (used by the
`add_messages` reducer to deduplicate). -/
structure Message where
  role : String
  content : String
  id : Option String := none
deriving DecidableEq, Repr

/-- The `AgentState` TypedDict of `state.py`. `next_agent` is `Option`al
because the TypedDict key may be absent; `graph.py` reads it defensively
with `state.get("next_agent", "FINISH")`. -/
structure AgentState where
  messages : List Message
  next_agent : Option String
  task_context : List (String × String)
  intermediate_results : List TurnRecord
deriving DecidableEq, Repr

/-- The `AGENTS` literal of `state.py`: the closed set of values the
supervisor's structured output (`RouterDecision.next_agent`, a pydantic
`Literal`) can take. -/
inductive AGENTS where
  | research
  | code
  | files
  | database
  | api
  | FINISH
deriving DecidableEq, Repr

/-- The string carried by each `AGENTS` literal. -/
def AGENTS.str : AGENTS → String
  | .research => "research"
  | .code => "code"
  | .files => "files"
  | .database => "database"
  | .api => "api"
  | .FINISH => "FINISH"

/-- A partial state update returned by a node: any subset of the
`AgentState` keys. A `none` (or `[]` for messages) field means the node
did not set that key. -/
structure StateDelta where
  messages : List Message := []
  next_agent : Option String := none
  task_context : Option (List (String × String)) := none
  intermediate_results : Option (List TurnRecord) := none
deriving DecidableEq, Repr

/-- The `add_messages` reducer of `langgraph.graph.message` declared on
`AgentState.messages`: each incoming message replaces an existing message
with the same id, and is appended otherwise (messages without an id are
always appended). -/
def upsertMessage (acc : List Message) (m : Message) : List Message :=
  match m.id with
  | none => acc ++ [m]
  | some i =>
    if acc.any (fun x => x.id = some i) then
      acc.map (fun x => if x.id = some i then m else x)
    else
      acc ++ [m]

/-- Fold `upsertMessage` over the incoming messages. -/
def add_messages (left right : List Message) : List Message :=
  right.foldl upsertMessage left

/-- LangGraph channel merge for `AgentState`: `messages` goes through the
`add_messages` reducer; the unannotated keys (`next_agent`,
`task_context`, `intermediate_results`) are overwritten when the delta
sets them and kept otherwise. -/
def merge (s : AgentState) (d : StateDelta) : AgentState where
  messages := add_messages s.messages d.messages
  next_agent :=
    match d.next_agent with
    | some v => some v
    | none => s.next_agent
  task_context := d.task_context.getD s.task_context
  intermediate_results := d.intermediate_results.getD s.intermediate_results

/-- A tool adapter as seen from `agent_node`: a name and an `invoke`
function that either returns a value or raises (`Except.error`). -/
structure Tool where
  name : String
  invoke : String → Except String String

/-- A tool call requested by the LLM response: `{"name", "args"}`
(arguments kept opaque as their serialized form). -/
structure ToolCall where
  name : String
  args : String
deriving DecidableEq, Repr

/-- The LLM response an agent node receives: text content, the structured
`tool_calls` list, and the message id assigned by the backend. -/
structure LLMResponse where
  content : String
  tool_calls : List ToolCall
  id : Option String := none

/-- The inner dispatch of `agent_node` for one requested tool call
(`agents.py` lines 70-86): scan `tools` for the first adapter whose name
matches (`for tool in tools: if tool.name == tool_name: ... break`); on a
match, invoke it and record a result/error entry. When no adapter
matches, the loop body never runs and nothing is recorded. -/
def execToolCall (tools : List Tool) (tc : ToolCall) : Option ToolResult :=
  match tools.find? (fun t => t.name = tc.name) with
  | none => none
  | some t =>
    match t.invoke tc.args with
    | Except.ok result => some ⟨tc.name, tc.args, Outcome.success result⟩
    | Except.error e => some ⟨tc.name, tc.args, Outcome.failure e⟩

/-- The `tool_results` accumulation loop of `agent_node`: one entry per
requested call that found a matching adapter, in request order. -/
def runToolCalls (tools : List Tool) (calls : List ToolCall) : List ToolResult :=
  calls.filterMap (execToolCall tools)

/-- One line of the summary: `Tool {t} failed: {e}\n` for an error entry,
`Tool {t}: {r}\n` otherwise (`agents.py` lines 89-94). -/
def summaryLine (tr : ToolResult) : String :=
  match tr.outcome with
  | Outcome.failure e => "Tool " ++ tr.tool ++ " failed: " ++ e ++ "\n"
  | Outcome.success r => "Tool " ++ tr.tool ++ ": " ++ r ++ "\n"

/-- The concatenation of the summary lines accumulated by the
`for tr in tool_results:` loop of `agent_node`. -/
def linesConcat : List ToolResult → String
  | [] => ""
  | tr :: rest => summaryLine tr ++ linesConcat rest

/-- The `result_summary` string built by `agent_node`:
`[{agent_name.upper()} AGENT RESULTS]\n` followed by one line per
recorded tool result. -/
def result_summary (agent_name : String) (tool_results : List ToolResult) : String :=
  "[" ++ pyUpper agent_name ++ " AGENT RESULTS]\n" ++ linesConcat tool_results

/-- `sub` occurs contiguously inside `s` (stated over the character
data). -/
def containsSub (s sub : String) : Prop :=
  ∃ a b : List Char, s.data = a ++ sub.data ++ b

/-- The worker node body (`agents.py`, `agent_node` inside
`create_agent_node`), with the LLM call abstracted into the given
`response`. If the response carries tool calls, execute them, append a
summary `AIMessage` and one record to a copy of `intermediate_results`;
otherwise return the response message alone. -/
def agent_node (agent_name : String) (tools : List Tool)
    (response : LLMResponse) (state : AgentState) : StateDelta :=
  if response.tool_calls ≠ [] then
    let tool_results := runToolCalls tools response.tool_calls
    let final_message : Message :=
      { role := "assistant", content := result_summary agent_name tool_results }
    let new_results :=
      state.intermediate_results ++ [⟨agent_name, tool_results⟩]
    { messages := [final_message], intermediate_results := some new_results }
  else
    { messages := [{ role := "assistant", content := response.content, id := response.id }] }

/-- The supervisor's structured output (`supervisor.py`,
`RouterDecision(BaseModel)`): a routing target constrained by the pydantic
`Literal` to the `AGENTS` set, plus a rationale. -/
structure RouterDecision where
  next_agent : AGENTS
  reasoning : String

/-- The supervisor node body (`supervisor.py`, `supervisor_node`), with
the structured LLM call abstracted into the given `decision`: copy
`task_context`, store the rationale under `"last_routing_reason"`, and
return a delta setting only `next_agent` and `task_context`. -/
def supervisor_node (decision : RouterDecision) (state : AgentState) : StateDelta :=
  let new_context := dictSet state.task_context "last_routing_reason" decision.reasoning
  { next_agent := some decision.next_agent.str, task_context := some new_context }

/-- LangGraph's terminal sentinel node name (`langgraph.graph.END`). -/
def END : String := "__end__"

/-- `route_to_agent` from `graph.py`: read `next_agent` with default
`"FINISH"`; `"FINISH"` routes to `END`, anything else routes to the node
of that name. -/
def route_to_agent (state : AgentState) : String :=
  let next_agent := state.next_agent.getD "FINISH"
  if next_agent = "FINISH" then END else next_agent

/-- The keys of `AGENT_NODES` in `agents.py`: the worker nodes added to
the graph. -/
def AGENT_NODES : List String := ["research", "code", "files", "database", "api"]

/-- The mapping passed to `add_conditional_edges` in `graph.py`: each
worker name maps to itself and `END` maps to `END`. -/
def conditional_edges_map : List (String × String) :=
  [("research", "research"), ("code", "code"), ("files", "files"),
   ("database", "database"), ("api", "api"), (END, END)]

/-- The unconditional edges added in `graph.py`:
`for agent_name in AGENT_NODES: graph.add_edge(agent_name, "supervisor")`. -/
def agent_edges : List (String × String) :=
  AGENT_NODES.map (fun n => (n, "supervisor"))

/-- A position of the compiled graph's executor: at the supervisor, at a
worker node, finished (`END`), or stopped on a graph error (a routing
value outside the conditional-edge mapping, or a worker with no outgoing
edge — fatal, not a normal exit). -/
inductive GraphNode where
  | supervisor
  | agent (name : String)
  | terminal
  | fatal
deriving DecidableEq, Repr

/-- One executor step of the compiled graph of `create_graph`
(`graph.py`): at `supervisor` run `supervisor_node`, merge its delta and
follow the conditional edge chosen by `route_to_agent`; at a worker node
run the worker, merge its delta and follow its unconditional edge. The
two LLM oracles (`router` for the supervisor's structured decision,
`workers` for each agent node's delta) abstract the external reasoning
step. -/
def orchestratorStep (router : AgentState → RouterDecision)
    (workers : String → AgentState → StateDelta) :
    GraphNode × AgentState → GraphNode × AgentState
  | (.supervisor, s) =>
    let s2 := merge s (supervisor_node (router s) s)
    match conditional_edges_map.lookup (route_to_agent s2) with
    | some t => if t = END then (.terminal, s2) else (.agent t, s2)
    | none => (.fatal, s2)
  | (.agent name, s) =>
    let s2 := merge s (workers name s)
    match agent_edges.lookup name with
    | some t => (if t = "supervisor" then (.supervisor, s2) else (.agent t, s2))
    | none => (.fatal, s2)
  | (.terminal, s) => (.terminal, s)
  | (.fatal, s) => (.fatal, s)

/-- What `subprocess.run` did for one code execution: completed with
captured stdout/stderr/returncode, raised `subprocess.TimeoutExpired`, or
raised some other exception (the generic `except Exception` branch). -/
inductive SubprocessOutcome where
  | completed (stdout stderr : String) (returncode : Int)
  | timedOut
  | raised (msg : String)
deriving Repr

/-- `execute_python` from `tools.py`, with the subprocess behaviour
abstracted into `outc`. Note the timeout branch catches
`subprocess.TimeoutExpired` and RETURNS the error text as the tool's
normal string result; it does not re-raise. -/
def execute_python (code_execution_timeout : Nat) (outc : SubprocessOutcome) : String :=
  match outc with
  | .completed stdout stderr returncode =>
    let output :=
      (if stdout ≠ "" then "STDOUT:\n" ++ stdout ++ "\n" else "")
        ++ (if stderr ≠ "" then "STDERR:\n" ++ stderr ++ "\n" else "")
        ++ (if returncode ≠ 0 then "Exit code: " ++ toString returncode else "")
    if pyStrip output = "" then "Code executed successfully (no output)" else pyStrip output
  | .timedOut =>
    "Error: Code execution timed out after " ++ toString code_execution_timeout ++ " seconds"
  | .raised msg => "Execution error: " ++ msg

/-- The `execute_python` langchain tool as bound to the code agent: its
`invoke` returns normally (never raises) for every subprocess outcome,
including a timeout. `run` maps the submitted code to what its subprocess
did. -/
def execute_python_tool (code_execution_timeout : Nat)
    (run : String → SubprocessOutcome) : Tool :=
  { name := "execute_python",
    invoke := fun code => Except.ok (execute_python code_execution_timeout (run code)) }

/-- `_validate_path` from `tools.py`, with `os.path.abspath` abstracted
into `abspath`: accept (return `none`) exactly when the absolute form of
`path` starts, as a string, with the absolute form of the allowed root. -/
def _validate_path (abspath : String → String) (allowed_file_path : String)
    (path : String) : Option String :=
  let abs_path := abspath path
  let allowed := abspath allowed_file_path
  if ¬ startswith abs_path allowed then
    some ("Error: Path \x27" ++ path ++ "\x27 is outside allowed directory \x27"
      ++ allowed_file_path ++ "\x27")
  else
    none

/-- `write_file` from `tools.py`, with the file system abstracted into
`fsWrite` (covering `os.makedirs` + `open(...).write`, which may raise):
validate the path, then create directories and write, reporting the
character count on success. -/
def write_file (abspath : String → String) (allowed_file_path : String)
    (fsWrite : String → String → Except String Unit)
    (file_path content : String) : String :=
  match _validate_path abspath allowed_file_path file_path with
  | some error => error
  | none =>
    match fsWrite file_path content with
    | Except.ok _ =>
      "Successfully wrote " ++ toString content.length ++ " characters to " ++ file_path
    | Except.error e => "Error writing file: " ++ e

/-- The configuration record of `config.py` (the fields `validate` and
`run_agent` read). -/
structure Config where
  openai_api_key : String
  model_name : String := "gpt-4o"
  allowed_file_path : String := ""
  code_execution_timeout : Nat := 30
deriving DecidableEq, Repr

/-- `Config.validate` from `config.py`: collect the names of the missing
required settings — only `OPENAI_API_KEY` is required; an empty string is
falsy and therefore missing. -/
def Config.validate (c : Config) : List String :=
  let missing : List String := []
  let missing := if c.openai_api_key = "" then missing ++ ["OPENAI_API_KEY"] else missing
  missing

/-- `run_agent` from `main.py`, with the compiled workflow abstracted
into `workflow` (mapping the initial state to the final response text, or
`none` when no node produced messages): validate the configuration first
and return the error string without ever invoking the workflow when
required values are missing; otherwise build the initial state and run
the workflow. -/
def run_agent (config : Config) (query : String)
    (workflow : AgentState → Option String) : String :=
  let missing := config.validate
  if missing ≠ [] then
    "Error: Missing required configuration: " ++ pyJoin ", " missing
  else
    let initial_state : AgentState :=
      { messages := [{ role := "user", content := query }],
        next_agent := some "",
        task_context := [("original_query", query)],
        intermediate_results := [] }
    match workflow initial_state with
    | some response => response
    | none => "No response generated"

/-- A concrete state used to instantiate universally quantified theorems. -/
def exState : AgentState :=
  { messages := [{ role := "user", content := "What is 2+2?" }],
    next_agent := some "",
    task_context := [("original_query", "What is 2+2?")],
    intermediate_results := [] }

/-- The code agent's bound tool list (`AGENT_TOOLS["code"] =
[execute_python]`) with a concrete subprocess behaviour: every submitted
program completes printing `4`. -/
def codeToolsEx : List Tool :=
  [execute_python_tool 30 (fun _ => SubprocessOutcome.completed "4\n" "" 0)]

/-- A concrete tool whose invocation returns normally. -/
def exToolCalc : Tool := ⟨"calc", fun _ => Except.ok "4"⟩

/-- A concrete tool whose invocation raises. -/
def exToolBoom : Tool := ⟨"boom", fun _ => Except.error "kaboom"⟩

/-- A worker tool list binding one succeeding and one raising tool. -/
def exToolsC3 : List Tool := [exToolCalc, exToolBoom]

/-- After a supervisor turn, the executor position is `terminal` exactly
for a `FINISH` decision and otherwise the worker node named by the
decision. -/
theorem supervisorStep_fst (router : AgentState → RouterDecision)
    (workers : String → AgentState → StateDelta) (s : AgentState) :
    (orchestratorStep router workers (GraphNode.supervisor, s)).1 =
      (if (router s).next_agent = AGENTS.FINISH then GraphNode.terminal
       else GraphNode.agent (router s).next_agent.str) := by
  simp only [orchestratorStep]
  rcases hr : router s with ⟨na, rs⟩
  simp only [hr]
  cases na <;> rfl

/-- The state after a supervisor turn is the merge of the supervisor's
delta, in every branch of the conditional edge. -/
theorem supervisorStep_snd (router : AgentState → RouterDecision)
    (workers : String → AgentState → StateDelta) (s : AgentState) :
    (orchestratorStep router workers (GraphNode.supervisor, s)).2 =
      merge s (supervisor_node (router s) s) := by
  simp only [orchestratorStep]
  rcases h : conditional_edges_map.lookup
      (route_to_agent (merge s (supervisor_node (router s) s))) with _ | t
  · simp [h]
  · simp only [h]
    split <;> rfl

/-- A worker node present in the graph always hands control back to the
supervisor. -/
theorem agentStep_fst (router : AgentState → RouterDecision)
    (workers : String → AgentState → StateDelta) (name : String)
    (s : AgentState) (h : name ∈ AGENT_NODES) :
    (orchestratorStep router workers (GraphNode.agent name, s)).1 =
      GraphNode.supervisor := by
  fin_cases h <;> rfl

/-- The state after a worker turn is the merge of the worker's delta, in
every branch. -/
theorem agentStep_snd (router : AgentState → RouterDecision)
    (workers : String → AgentState → StateDelta) (name : String)
    (s : AgentState) :
    (orchestratorStep router workers (GraphNode.agent name, s)).2 =
      merge s (workers name s) := by
  simp only [orchestratorStep]
  rcases h : agent_edges.lookup name with _ | t
  · simp [h]
  · simp only [h]
    split <;> rfl

/-- Claim C1: the orchestrator loop reaches the terminal node if and only
if the Router turn decided `FINISH`; a supervisor turn is never fatal and
only ever dispatches to a worker of the graph; every worker node
unconditionally transitions back to the supervisor; and `route_to_agent`
treats an absent `next_agent` as `"FINISH"`, routing to `END`. -/
theorem C1_done_iff_router_FINISH
    (router : AgentState → RouterDecision)
    (workers : String → AgentState → StateDelta) (s : AgentState) :
    ((orchestratorStep router workers (GraphNode.supervisor, s)).1 = GraphNode.terminal
        ↔ (router s).next_agent = AGENTS.FINISH)
      ∧ (orchestratorStep router workers (GraphNode.supervisor, s)).1 ≠ GraphNode.fatal
      ∧ (∀ n : String,
          (orchestratorStep router workers (GraphNode.supervisor, s)).1 = GraphNode.agent n
            → n ∈ AGENT_NODES)
      ∧ (∀ name : String, name ∈ AGENT_NODES → ∀ s2 : AgentState,
          (orchestratorStep router workers (GraphNode.agent name, s2)).1
            = GraphNode.supervisor)
      ∧ (∀ s3 : AgentState, s3.next_agent = none → route_to_agent s3 = END) := by
  refine ⟨?_, ?_, ?_, ?_, ?_⟩
  · rw [supervisorStep_fst]
    cases hna : (router s).next_agent <;> simp [hna, AGENTS.str]
  · rw [supervisorStep_fst]
    cases hna : (router s).next_agent <;> simp [AGENTS.str]
  · rw [supervisorStep_fst]
    cases hna : (router s).next_agent <;> intro n hn <;> simp [AGENTS.str] at hn <;>
      simp [hn, AGENT_NODES]
  · intro name h s2
    exact agentStep_fst router workers name s2 h
  · intro s3 h
    unfold route_to_agent
    rw [h]
    rfl

/-- Witness for C1: a concrete `FINISH` decision terminates, and the
`"code"` worker node hands control back to the supervisor. -/
theorem C1_done_iff_router_FINISH_witness :
    ((orchestratorStep (fun _ => ⟨AGENTS.FINISH, "done"⟩) (fun _ _ => {})
        (GraphNode.supervisor, exState)).1 = GraphNode.terminal)
    ∧ (orchestratorStep (fun _ => ⟨AGENTS.code, "compute"⟩) (fun _ _ => {})
        (GraphNode.agent "code", exState)).1 = GraphNode.supervisor :=
  ⟨(C1_done_iff_router_FINISH (fun _ => ⟨AGENTS.FINISH, "done"⟩) (fun _ _ => {})
      exState).1.mpr rfl,
   (C1_done_iff_router_FINISH (fun _ => ⟨AGENTS.code, "compute"⟩) (fun _ _ => {})
      exState).2.2.2.1 "code" (by decide) exState⟩

/-- Upserting one message never shortens the list: a replacement keeps
the length, an append increases it. -/
theorem upsertMessage_length (acc : List Message) (m : Message) :
    acc.length ≤ (upsertMessage acc m).length := by
  obtain ⟨r, c, mid⟩ := m
  cases mid with
  | none => simp [upsertMessage]
  | some i =>
    simp only [upsertMessage]
    split <;> simp

/-- The `add_messages` reducer never shortens the accumulated list. -/
theorem add_messages_length (left right : List Message) :
    left.length ≤ (add_messages left right).length := by
  unfold add_messages
  induction right generalizing left with
  | nil => simp
  | cons m rest ih =>
    calc left.length ≤ (upsertMessage left m).length := upsertMessage_length left m
      _ ≤ _ := ih (upsertMessage left m)

/-- Merging a single message whose id is fresh (absent, or unequal to
every prior id) is a pure append: no prior entry is removed or edited. -/
theorem add_messages_singleton_fresh (l : List Message) (m : Message)
    (h : m.id = none ∨ ∀ p ∈ l, p.id ≠ m.id) :
    add_messages l [m] = l ++ [m] := by
  have hup : upsertMessage l m = l ++ [m] := by
    rcases hm : m.id with _ | i
    · simp [upsertMessage, hm]
    · rcases h with h | h
      · rw [hm] at h
        exact absurd h (by simp)
      · have hany : l.any (fun x => x.id = some i) = false := by
          rw [List.any_eq_false]
          intro p hp
          have hne := h p hp
          rw [hm] at hne
          simpa using hne
        simp [upsertMessage, hm, hany]
  simpa [add_messages] using hup

/-- Merging any delta never shortens `messages`. -/
theorem merge_messages_length (s : AgentState) (d : StateDelta) :
    s.messages.length ≤ (merge s d).messages.length :=
  add_messages_length s.messages d.messages

/-- Claim C6: the length of `messages` is monotonically non-decreasing
across every executor step — a supervisor turn, a worker turn, and the
absorbing terminal/fatal positions all merge their delta through the
appending `add_messages` reducer or leave the state untouched. -/
theorem C6_history_monotone
    (router : AgentState → RouterDecision)
    (workers : String → AgentState → StateDelta)
    (node : GraphNode) (s : AgentState) :
    s.messages.length
      ≤ ((orchestratorStep router workers (node, s)).2).messages.length := by
  cases node with
  | supervisor =>
    rw [supervisorStep_snd]
    exact merge_messages_length s _
  | agent name =>
    rw [agentStep_snd]
    exact merge_messages_length s _
  | terminal => exact le_rfl
  | fatal => exact le_rfl

/-- Claim C9: a supervisor turn appends nothing to the conversation: its
delta carries no messages and no results, and after the merge the message
list and the results list are unchanged while `next_agent` is set to the
decision and `task_context` gains the rationale under
`"last_routing_reason"`. -/
theorem C9_supervisor_frame (decision : RouterDecision) (s : AgentState) :
    (supervisor_node decision s).messages = []
    ∧ (supervisor_node decision s).intermediate_results = none
    ∧ (merge s (supervisor_node decision s)).messages = s.messages
    ∧ (merge s (supervisor_node decision s)).intermediate_results
        = s.intermediate_results
    ∧ (merge s (supervisor_node decision s)).next_agent
        = some decision.next_agent.str
    ∧ (merge s (supervisor_node decision s)).task_context
        = dictSet s.task_context "last_routing_reason" decision.reasoning :=
  ⟨rfl, rfl, rfl, rfl, rfl, rfl⟩

/-- Claim C5: a worker turn's delta never sets `next_agent` and never
sets `task_context`; through the merge the routing and context are
unchanged; its results field is either absent or the prior results list
extended by exactly the new turn record; and its history contribution is
at most a message addition: the delta carries exactly one message, the
tool-summary branch merges as an unconditional pure append (the summary
`AIMessage` is created fresh, id `none`), and whenever the delta's
message ids do not collide with a prior history id (the backend assigns
ids fresh), the merged history is exactly the prior history with the
delta appended — no prior entry is removed or edited. -/
theorem C5_worker_frame (agent_name : String) (tools : List Tool)
    (response : LLMResponse) (s : AgentState) :
    (agent_node agent_name tools response s).next_agent = none
    ∧ (agent_node agent_name tools response s).task_context = none
    ∧ (merge s (agent_node agent_name tools response s)).next_agent = s.next_agent
    ∧ (merge s (agent_node agent_name tools response s)).task_context = s.task_context
    ∧ ((agent_node agent_name tools response s).intermediate_results = none
        ∨ (agent_node agent_name tools response s).intermediate_results
            = some (s.intermediate_results
                ++ [⟨agent_name, runToolCalls tools response.tool_calls⟩]))
    ∧ ((merge s (agent_node agent_name tools response s)).intermediate_results
          = s.intermediate_results
        ∨ (merge s (agent_node agent_name tools response s)).intermediate_results
            = s.intermediate_results
                ++ [⟨agent_name, runToolCalls tools response.tool_calls⟩])
    ∧ (∃ msg : Message, (agent_node agent_name tools response s).messages = [msg])
    ∧ (response.tool_calls ≠ [] →
        (merge s (agent_node agent_name tools response s)).messages
          = s.messages ++ (agent_node agent_name tools response s).messages)
    ∧ ((∀ m ∈ (agent_node agent_name tools response s).messages,
          m.id = none ∨ ∀ p ∈ s.messages, p.id ≠ m.id) →
        (merge s (agent_node agent_name tools response s)).messages
          = s.messages ++ (agent_node agent_name tools response s).messages) := by
  unfold agent_node
  split
  next hcond =>
    refine ⟨rfl, rfl, rfl, rfl, Or.inr rfl, Or.inr rfl, ⟨_, rfl⟩, ?_, ?_⟩
    · intro _
      exact add_messages_singleton_fresh s.messages
        { role := "assistant",
          content := result_summary agent_name (runToolCalls tools response.tool_calls),
          id := none } (Or.inl rfl)
    · intro _
      exact add_messages_singleton_fresh s.messages
        { role := "assistant",
          content := result_summary agent_name (runToolCalls tools response.tool_calls),
          id := none } (Or.inl rfl)
  next hcond =>
    refine ⟨rfl, rfl, rfl, rfl, Or.inl rfl, Or.inl rfl, ⟨_, rfl⟩, ?_, ?_⟩
    · intro hcalls
      exact absurd hcalls hcond
    · intro hfresh
      exact add_messages_singleton_fresh s.messages
        { role := "assistant", content := response.content, id := response.id }
        (hfresh { role := "assistant", content := response.content, id := response.id }
          (by simp))

/-- Witness for C5: a no-tool-call turn with a fresh (absent) message id
merges as a pure append, and a tool-call turn appends unconditionally. -/
theorem C5_worker_frame_witness :
    (agent_node "api" [] { content := "hello", tool_calls := [] } exState).next_agent = none
    ∧ (merge exState
          (agent_node "api" [] { content := "hello", tool_calls := [] } exState)).messages
        = exState.messages
          ++ (agent_node "api" [] { content := "hello", tool_calls := [] } exState).messages
    ∧ (merge exState
          (agent_node "code" codeToolsEx
            { content := "", tool_calls := [⟨"execute_python", "print(2+2)"⟩] }
            exState)).messages
        = exState.messages
          ++ (agent_node "code" codeToolsEx
              { content := "", tool_calls := [⟨"execute_python", "print(2+2)"⟩] }
              exState).messages :=
  ⟨(C5_worker_frame "api" [] { content := "hello", tool_calls := [] } exState).1,
   (C5_worker_frame "api" [] { content := "hello", tool_calls := [] }
      exState).2.2.2.2.2.2.2.2 (by decide),
   (C5_worker_frame "code" codeToolsEx
      { content := "", tool_calls := [⟨"execute_python", "print(2+2)"⟩] }
      exState).2.2.2.2.2.2.2.1 (by decide)⟩

/-- Counterexample to claim C2: a requested invocation of
`"tavily_search"` on the code worker (whose only bound tool is
`execute_python`) matches no tool; the code's inner `for tool in tools`
loop then never runs its body, so NO invocation record at all is
appended — in particular no `Failure("tool not found")` — and the
appended turn record carries an empty invocation list. -/
theorem C2_counterexample :
    runToolCalls codeToolsEx [⟨"tavily_search", "q"⟩] = []
    ∧ (runToolCalls codeToolsEx [⟨"tavily_search", "q"⟩]).all
        (fun tr =>
          match tr.outcome with
          | Outcome.failure _ => false
          | Outcome.success _ => true) = true
    ∧ (agent_node "code" codeToolsEx
          { content := "", tool_calls := [⟨"tavily_search", "q"⟩] }
          exState).intermediate_results
        = some [⟨"code", []⟩] :=
  ⟨rfl, rfl, rfl⟩

/-- Claim C2 as amended: a requested invocation whose name matches no
bound tool is silently skipped — it produces no invocation record (rather
than a `Failure("tool not found")` record) — and processing continues
with the remaining requested invocations. -/
theorem C2_missing_tool_skipped (tools : List Tool) (tc : ToolCall)
    (rest : List ToolCall)
    (h : tools.find? (fun t => t.name = tc.name) = none) :
    execToolCall tools tc = none
    ∧ runToolCalls tools (tc :: rest) = runToolCalls tools rest := by
  have he : execToolCall tools tc = none := by
    unfold execToolCall
    rw [h]
  exact ⟨he, by simp [runToolCalls, he]⟩

/-- Witness for the amended C2 at the concrete code worker: the unmatched
`tavily_search` call is skipped and the remaining `execute_python` call
still runs. -/
theorem C2_missing_tool_skipped_witness :
    execToolCall codeToolsEx ⟨"tavily_search", "q"⟩ = none
    ∧ runToolCalls codeToolsEx
        [⟨"tavily_search", "q"⟩, ⟨"execute_python", "print(2+2)"⟩]
      = runToolCalls codeToolsEx [⟨"execute_python", "print(2+2)"⟩] :=
  C2_missing_tool_skipped codeToolsEx ⟨"tavily_search", "q"⟩
    [⟨"execute_python", "print(2+2)"⟩] rfl

/-- Claim C3: in a worker turn with exactly two requested invocations of
bound tools where one returns normally and the other raises — in either
order — the appended turn record holds exactly the two entries, one
`Success` and one `Failure`, in request order, and the single summary
message contains both outcome lines, each attributed to its tool name. -/
theorem C3_partial_failure (agent_name : String) (tools : List Tool)
    (s : AgentState) (c1 c2 : ToolCall) (t1 t2 : Tool) (v e : String)
    (h1 : tools.find? (fun t => t.name = c1.name) = some t1)
    (h2 : tools.find? (fun t => t.name = c2.name) = some t2) :
    (t1.invoke c1.args = Except.ok v → t2.invoke c2.args = Except.error e →
      (agent_node agent_name tools { content := "", tool_calls := [c1, c2] }
          s).intermediate_results
        = some (s.intermediate_results
            ++ [⟨agent_name, [⟨c1.name, c1.args, Outcome.success v⟩,
                  ⟨c2.name, c2.args, Outcome.failure e⟩]⟩])
      ∧ ∃ msg : Message,
          (agent_node agent_name tools { content := "", tool_calls := [c1, c2] }
              s).messages = [msg]
          ∧ containsSub msg.content ("Tool " ++ c1.name ++ ": " ++ v ++ "\n")
          ∧ containsSub msg.content ("Tool " ++ c2.name ++ " failed: " ++ e ++ "\n"))
    ∧ (t1.invoke c1.args = Except.error e → t2.invoke c2.args = Except.ok v →
      (agent_node agent_name tools { content := "", tool_calls := [c1, c2] }
          s).intermediate_results
        = some (s.intermediate_results
            ++ [⟨agent_name, [⟨c1.name, c1.args, Outcome.failure e⟩,
                  ⟨c2.name, c2.args, Outcome.success v⟩]⟩])
      ∧ ∃ msg : Message,
          (agent_node agent_name tools { content := "", tool_calls := [c1, c2] }
              s).messages = [msg]
          ∧ containsSub msg.content ("Tool " ++ c1.name ++ " failed: " ++ e ++ "\n")
          ∧ containsSub msg.content ("Tool " ++ c2.name ++ ": " ++ v ++ "\n")) := by
  constructor
  · intro hv he
    have hrun : runToolCalls tools [c1, c2]
        = [⟨c1.name, c1.args, Outcome.success v⟩,
           ⟨c2.name, c2.args, Outcome.failure e⟩] := by
      simp [runToolCalls, execToolCall, h1, h2, hv, he]
    refine ⟨by simp [agent_node, hrun], ?_⟩
    refine ⟨{ role := "assistant",
              content := result_summary agent_name
                [⟨c1.name, c1.args, Outcome.success v⟩,
                 ⟨c2.name, c2.args, Outcome.failure e⟩] }, ?_, ?_, ?_⟩
    · simp [agent_node, hrun]
    · refine ⟨("[" ++ pyUpper agent_name ++ " AGENT RESULTS]\n").data,
        (summaryLine ⟨c2.name, c2.args, Outcome.failure e⟩ ++ "").data, ?_⟩
      simp [result_summary, linesConcat, summaryLine, String.data_append,
        List.append_assoc]
    · refine ⟨("[" ++ pyUpper agent_name ++ " AGENT RESULTS]\n").data
          ++ (summaryLine ⟨c1.name, c1.args, Outcome.success v⟩).data,
        "".data, ?_⟩
      simp [result_summary, linesConcat, summaryLine, String.data_append,
        List.append_assoc]
  · intro he hv
    have hrun : runToolCalls tools [c1, c2]
        = [⟨c1.name, c1.args, Outcome.failure e⟩,
           ⟨c2.name, c2.args, Outcome.success v⟩] := by
      simp [runToolCalls, execToolCall, h1, h2, hv, he]
    refine ⟨by simp [agent_node, hrun], ?_⟩
    refine ⟨{ role := "assistant",
              content := result_summary agent_name
                [⟨c1.name, c1.args, Outcome.failure e⟩,
                 ⟨c2.name, c2.args, Outcome.success v⟩] }, ?_, ?_, ?_⟩
    · simp [agent_node, hrun]
    · refine ⟨("[" ++ pyUpper agent_name ++ " AGENT RESULTS]\n").data,
        (summaryLine ⟨c2.name, c2.args, Outcome.success v⟩ ++ "").data, ?_⟩
      simp [result_summary, linesConcat, summaryLine, String.data_append,
        List.append_assoc]
    · refine ⟨("[" ++ pyUpper agent_name ++ " AGENT RESULTS]\n").data
          ++ (summaryLine ⟨c1.name, c1.args, Outcome.failure e⟩).data,
        "".data, ?_⟩
      simp [result_summary, linesConcat, summaryLine, String.data_append,
        List.append_assoc]

/-- Witness for C3 at a concrete worker, exercising both orders: the
succeeding `calc` call before the raising `boom` call, and the raising
call first. -/
theorem C3_partial_failure_witness :
    ((agent_node "code" exToolsC3
        { content := "", tool_calls := [⟨"calc", "x"⟩, ⟨"boom", "y"⟩] }
        exState).intermediate_results
      = some (exState.intermediate_results
          ++ [⟨"code", [⟨"calc", "x", Outcome.success "4"⟩,
                ⟨"boom", "y", Outcome.failure "kaboom"⟩]⟩])
    ∧ ∃ msg : Message,
        (agent_node "code" exToolsC3
            { content := "", tool_calls := [⟨"calc", "x"⟩, ⟨"boom", "y"⟩] }
            exState).messages = [msg]
        ∧ containsSub msg.content ("Tool " ++ "calc" ++ ": " ++ "4" ++ "\n")
        ∧ containsSub msg.content ("Tool " ++ "boom" ++ " failed: " ++ "kaboom" ++ "\n"))
    ∧ ((agent_node "code" exToolsC3
        { content := "", tool_calls := [⟨"boom", "y"⟩, ⟨"calc", "x"⟩] }
        exState).intermediate_results
      = some (exState.intermediate_results
          ++ [⟨"code", [⟨"boom", "y", Outcome.failure "kaboom"⟩,
                ⟨"calc", "x", Outcome.success "4"⟩]⟩])
    ∧ ∃ msg : Message,
        (agent_node "code" exToolsC3
            { content := "", tool_calls := [⟨"boom", "y"⟩, ⟨"calc", "x"⟩] }
            exState).messages = [msg]
        ∧ containsSub msg.content ("Tool " ++ "boom" ++ " failed: " ++ "kaboom" ++ "\n")
        ∧ containsSub msg.content ("Tool " ++ "calc" ++ ": " ++ "4" ++ "\n")) :=
  ⟨(C3_partial_failure "code" exToolsC3 exState ⟨"calc", "x"⟩ ⟨"boom", "y"⟩
      exToolCalc exToolBoom "4" "kaboom" rfl rfl).1 rfl rfl,
   (C3_partial_failure "code" exToolsC3 exState ⟨"boom", "y"⟩ ⟨"calc", "x"⟩
      exToolBoom exToolCalc "4" "kaboom" rfl rfl).2 rfl rfl⟩

/-- Counterexample to claim C4: a turn whose single requested invocation
names no bound tool performs zero capability invocations, yet a
turn-result record (with an empty invocation list) is still appended,
because the code appends one record whenever `response.tool_calls` is
non-empty. -/
theorem C4_counterexample :
    runToolCalls [] [⟨"ghost_tool", "a"⟩] = []
    ∧ (agent_node "files" []
          { content := "", tool_calls := [⟨"ghost_tool", "a"⟩] }
          exState).intermediate_results
        = some [⟨"files", []⟩] :=
  ⟨rfl, rfl⟩

/-- Claim C4 as amended: a worker turn appends exactly one turn-result
record exactly when the reasoning step REQUESTS at least one invocation
(the record's invocation list can be empty when no requested name matched
a bound tool); with no requested invocations, the delta holds only the
single answer message and leaves results unset. -/
theorem C4_record_iff_toolcalls (agent_name : String) (tools : List Tool)
    (response : LLMResponse) (s : AgentState) :
    (agent_node agent_name tools response s).intermediate_results
      = (if response.tool_calls = [] then none
         else some (s.intermediate_results
             ++ [⟨agent_name, runToolCalls tools response.tool_calls⟩]))
    ∧ (agent_node agent_name tools response s).messages
      = (if response.tool_calls = [] then
           [{ role := "assistant", content := response.content, id := response.id }]
         else
           [{ role := "assistant",
              content := result_summary agent_name
                (runToolCalls tools response.tool_calls) }]) := by
  by_cases h : response.tool_calls = [] <;> simp [agent_node, h]

/-- Counterexample to claim C7: a code execution that hits the configured
30-second timeout is recorded in the turn's invocation records as a
SUCCESS entry whose value is the timeout message — not as a `Failure` —
because `execute_python` catches `subprocess.TimeoutExpired` and returns
the error text as its normal string result, which `agent_node` then
stores under the `"result"` key. The second conjunct checks that no entry
of the record is a `Failure`. -/
theorem C7_counterexample :
    runToolCalls [execute_python_tool 30 (fun _ => SubprocessOutcome.timedOut)]
        [⟨"execute_python", "while True: pass"⟩]
      = [⟨"execute_python", "while True: pass",
          Outcome.success "Error: Code execution timed out after 30 seconds"⟩]
    ∧ (runToolCalls [execute_python_tool 30 (fun _ => SubprocessOutcome.timedOut)]
          [⟨"execute_python", "while True: pass"⟩]).all
        (fun tr =>
          match tr.outcome with
          | Outcome.failure _ => false
          | Outcome.success _ => true) = true := by
  exact ⟨by decide, by decide⟩

/-- Claim C7 as amended: a timed-out code execution is never silently
dropped — it always yields an invocation record — but the record is a
`Success` entry carrying the timeout error message
`Error: Code execution timed out after N seconds`, where `N` is the
configured `code_execution_timeout`, since the tool converts the timeout
into a returned string instead of raising. -/
theorem C7_timeout_recorded (code_execution_timeout : Nat)
    (run : String → SubprocessOutcome) (tc : ToolCall)
    (hname : tc.name = "execute_python")
    (htimeout : run tc.args = SubprocessOutcome.timedOut) :
    execToolCall [execute_python_tool code_execution_timeout run] tc
      = some ⟨tc.name, tc.args,
          Outcome.success ("Error: Code execution timed out after "
            ++ toString code_execution_timeout ++ " seconds")⟩ := by
  obtain ⟨n, a⟩ := tc
  simp only at hname htimeout
  subst hname
  simp [execToolCall, execute_python_tool, execute_python, htimeout]

/-- Witness for the amended C7 with a 5-second configured timeout. -/
theorem C7_timeout_recorded_witness :
    execToolCall [execute_python_tool 5 (fun _ => SubprocessOutcome.timedOut)]
        ⟨"execute_python", "import time; time.sleep(60)"⟩
      = some ⟨"execute_python", "import time; time.sleep(60)",
          Outcome.success ("Error: Code execution timed out after "
            ++ toString 5 ++ " seconds")⟩ :=
  C7_timeout_recorded 5 (fun _ => SubprocessOutcome.timedOut)
    ⟨"execute_python", "import time; time.sleep(60)"⟩ rfl rfl

/-- Claim C8: with the OpenAI API key absent, `Config.validate` returns
the list of missing required value names (it does not raise), and
`run_agent` returns the explanatory error message without ever invoking
the workflow — the result is the same for every workflow, so no Router or
Worker turn can have run. -/
theorem C8_missing_key_aborts (config : Config) (query : String)
    (workflow workflow2 : AgentState → Option String)
    (h : config.openai_api_key = "") :
    config.validate = ["OPENAI_API_KEY"]
    ∧ run_agent config query workflow
        = "Error: Missing required configuration: OPENAI_API_KEY"
    ∧ run_agent config query workflow = run_agent config query workflow2 := by
  have hv : config.validate = ["OPENAI_API_KEY"] := by
    simp [Config.validate, h]
  have hrun : ∀ w : AgentState → Option String,
      run_agent config query w
        = "Error: Missing required configuration: OPENAI_API_KEY" := by
    intro w
    simp [run_agent, hv, pyJoin]
  exact ⟨hv, hrun workflow, (hrun workflow).trans (hrun workflow2).symm⟩

/-- Witness for C8: a configuration with an empty key aborts before the
workflow, whether the workflow would answer or not. -/
theorem C8_missing_key_aborts_witness :
    ({ openai_api_key := "" } : Config).validate = ["OPENAI_API_KEY"]
    ∧ run_agent { openai_api_key := "" } "What is 2+2?" (fun _ => some "4")
        = "Error: Missing required configuration: OPENAI_API_KEY"
    ∧ run_agent { openai_api_key := "" } "What is 2+2?" (fun _ => some "4")
        = run_agent { openai_api_key := "" } "What is 2+2?" (fun _ => none) :=
  C8_missing_key_aborts { openai_api_key := "" } "What is 2+2?"
    (fun _ => some "4") (fun _ => none) rfl

/-- Claim C10: path confinement in the file tools is a plain string-prefix
check over `os.path.abspath` forms — `_validate_path` accepts exactly when
the absolute path starts with the absolute allowed root — and therefore
accepts the sibling `/tmp/database.txt` under the root `/tmp/data`, after
which `write_file` proceeds to write and reports success. The `abspath`
hypotheses pin down `os.path.abspath` on the two given absolute,
already-normalized paths, where it is the identity. -/
theorem C10_prefix_confinement (abspath : String → String)
    (allowed_file_path path : String)
    (h1 : abspath "/tmp/database.txt" = "/tmp/database.txt")
    (h2 : abspath "/tmp/data" = "/tmp/data") :
    (_validate_path abspath allowed_file_path path = none
      ↔ startswith (abspath path) (abspath allowed_file_path) = true)
    ∧ _validate_path abspath "/tmp/data" "/tmp/database.txt" = none
    ∧ write_file abspath "/tmp/data" (fun _ _ => Except.ok ())
        "/tmp/database.txt" "oops"
      = "Successfully wrote " ++ toString ("oops".length)
          ++ " characters to /tmp/database.txt" := by
  have key : ∀ root p : String,
      _validate_path abspath root p = none
        ↔ startswith (abspath p) (abspath root) = true := by
    intro root p
    unfold _validate_path
    by_cases hc : startswith (abspath p) (abspath root) = true
    · simp [hc]
    · simp [hc]
  have hs : startswith "/tmp/database.txt" "/tmp/data" = true := by decide
  have hvalid : _validate_path abspath "/tmp/data" "/tmp/database.txt" = none := by
    rw [key]
    rw [h1, h2]
    exact hs
  refine ⟨key allowed_file_path path, hvalid, ?_⟩
  unfold write_file
  rw [hvalid]
  rfl

/-- Witness for C10 with `abspath` instantiated to the identity (its
behaviour on absolute normalized paths). -/
theorem C10_prefix_confinement_witness :
    _validate_path (fun p => p) "/tmp/data" "/tmp/database.txt" = none
    ∧ write_file (fun p => p) "/tmp/data" (fun _ _ => Except.ok ())
        "/tmp/database.txt" "oops"
      = "Successfully wrote " ++ toString ("oops".length)
          ++ " characters to /tmp/database.txt" :=
  ⟨(C10_prefix_confinement (fun p => p) "/tmp/data" "/tmp/database.txt"
      rfl rfl).2.1,
   (C10_prefix_confinement (fun p => p) "/tmp/data" "/tmp/database.txt"
      rfl rfl).2.2⟩

end AgenticAI
